import Mathlib

/-!
Verification of the key-lifecycle and dual-algorithm signing layer of the
SmartLedger PQ demo application.

The pure helpers are transcribed from the repository's sources: arrayToHex
from src/utils/sdk-loader.ts, hexToUint8Array from
SignatureVerificationSection.tsx, loadSDKFromCDN from sdk-loader.ts, the
React handlers from KeyManagementSection.tsx, CustomMessageSection.tsx,
SigningSection.tsx and App.tsx.  A Uint8Array is modelled as a list of byte
values; awaited SDK calls are modelled as oracle functions returning
Except (a thrown error is the error case).  The external @smartledger/keys
SDK itself is not part of the repository; its operations are modelled from
the specification where a claim needs them, and each such definition says so
in its doc comment.
-/

namespace SmartLedgerPQ

/-! ## Hexadecimal encoding and decoding -/

/-- Character class of the regex [^0-9a-fA-F] used by hexToUint8Array's
replace call: true exactly on the ASCII hexadecimal digits, which the
replace keeps. -/
def isHexDigit (c : Char) : Bool :=
  decide ((48 ≤ c.toNat ∧ c.toNat ≤ 57) ∨ (97 ≤ c.toNat ∧ c.toNat ≤ 102) ∨
    (65 ≤ c.toNat ∧ c.toNat ≤ 70))

/-- Value of one hexadecimal digit character, as assigned by JS parseInt
with radix 16 (the decoder only applies it to characters kept by
isHexDigit). -/
def hexVal (c : Char) : Nat :=
  if 48 ≤ c.toNat ∧ c.toNat ≤ 57 then c.toNat - 48
  else if 97 ≤ c.toNat ∧ c.toNat ≤ 102 then c.toNat - 87
  else c.toNat - 55

/-- The hexadecimal digit character for a value below 16, as produced by
Number.prototype.toString(16): 0-9 then lowercase a-f. -/
def hexDigitChar (d : Nat) : Char :=
  if d < 10 then Char.ofNat (48 + d) else Char.ofNat (87 + d)

/-- b.toString(16).padStart(2, '0') for a byte value b < 256: at most two
hexadecimal digits, left-padded with '0' to exactly two. -/
def byteToHex (b : Nat) : List Char :=
  [hexDigitChar (b / 16), hexDigitChar (b % 16)]

/-- arrayToHex from src/utils/sdk-loader.ts:
Array.from(arr.slice(0, length)).map(b => b.toString(16).padStart(2, '0')).join(''). -/
def arrayToHex (arr : List Nat) (len : Nat) : String :=
  String.mk ((arr.take len).map byteToHex).flatten

/-- arrayToHex as the export path invokes it, with the default value 32 of
its length parameter (KeyExportSection.tsx calls arrayToHex(pubKey)). -/
def arrayToHexDefault (arr : List Nat) : String :=
  arrayToHex arr 32

/-- JS parseInt(s, 16) restricted to nonempty strings of hexadecimal
digits, the only arguments the decoder's loop passes it. -/
def parseIntHex (cs : List Char) : Nat :=
  cs.foldl (fun a c => a * 16 + hexVal c) 0

/-- ES2017+ ToIndex applied to the JS number n / 2 (possibly fractional):
ToIntegerOrInfinity truncates toward zero, and a RangeError is thrown only
when the truncated index falls outside 0 .. 2 ^ 53 - 1. -/
def toIndexHalf (n : Nat) : Except String Nat :=
  if n / 2 < 2 ^ 53 then Except.ok (n / 2) else Except.error "RangeError"

/-- The write loop of hexToUint8Array:
for (i = 0; i < cleanHex.length; i += 2) bytes[i/2] = parseInt(cleanHex.substr(i, 2), 16).
The recursion consumes the suffix of cleanHex from position i and keeps
j = i / 2.  A store whose index falls outside the array bounds is
discarded, exactly as a typed-array out-of-bounds write is (List.set is the
identity there).  Every stored value is parsed from one or two hexadecimal
digits, so it is below 256 and the Uint8Array element conversion is the
identity. -/
def writeLoopAux (bytes : List Nat) (j : Nat) : List Char → List Nat
  | [] => bytes
  | [c] => bytes.set j (parseIntHex [c])
  | c1 :: c2 :: rest => writeLoopAux (bytes.set j (parseIntHex [c1, c2])) (j + 1) rest

/-- hexToUint8Array from SignatureVerificationSection.tsx: strips every
character that is not a hexadecimal digit, allocates
new Uint8Array(cleanHex.length / 2) — whose possibly fractional length goes
through ToIndex — and runs the write loop over the remaining digits. -/
def hexToUint8Array (s : String) : Except String (List Nat) :=
  let cleanHex := s.data.filter isHexDigit
  match toIndexHalf cleanHex.length with
  | Except.error e => Except.error e
  | Except.ok len => Except.ok (writeLoopAux (List.replicate len 0) 0 cleanHex)

/-- Pairwise reading of a digit string: two digits at a time, high digit
first; a lone trailing digit contributes nothing. -/
def hexPairs : List Char → List Nat
  | c1 :: c2 :: rest => (16 * hexVal c1 + hexVal c2) :: hexPairs rest
  | _ => []

/-- The decoder's output as the claim describes it: count / 2 bytes, byte i
parsed from hexadecimal digits 2i and 2i+1 of the cleaned input. -/
def decodedBytesSpec (cs : List Char) : List Nat :=
  (List.range (cs.length / 2)).map
    (fun i => 16 * hexVal (cs.getD (2 * i) '0') + hexVal (cs.getD (2 * i + 1) '0'))

/-! ## The SDK data model (types from src/types/sdk.ts) -/

/-- The SignatureSuite union type of src/types/sdk.ts:
'bsv-ecdsa-secp256k1' | 'ml-dsa-44' | 'ml-dsa-65' | 'ml-dsa-87'. -/
inductive SignatureSuite
  | bsvEcdsaSecp256k1
  | mlDsa44
  | mlDsa65
  | mlDsa87
deriving DecidableEq, Repr

/-- suiteId.startsWith('ml-dsa'), as tested by handleGetProfile. -/
def isMlDsaSuite : SignatureSuite → Bool
  | SignatureSuite.bsvEcdsaSecp256k1 => false
  | SignatureSuite.mlDsa44 => true
  | SignatureSuite.mlDsa65 => true
  | SignatureSuite.mlDsa87 => true

/-- The status union 'active' | 'inactive' of KeyMeta. -/
inductive KeyStatus
  | active
  | inactive
deriving DecidableEq, Repr

/-- KeyMeta from src/types/sdk.ts. -/
structure KeyMeta where
  keyId : String
  suiteId : SignatureSuite
  usage : List String
  status : KeyStatus
deriving DecidableEq, Repr

/-- KeyRecord from src/types/sdk.ts: the record the SDK hands to callers. -/
structure KeyRecord where
  meta : KeyMeta
  publicKey : List Nat
deriving DecidableEq, Repr

/-! ## The SDK operations, modelled from the spec

The @smartledger/keys implementation behind window.LumenKeys is loaded from
a CDN and is not among the repository's files; only its TypeScript
interface (src/types/sdk.ts) and its callers are.  The definitions below
model it from the specification's Key Store and Signing Engine sections. -/

/-- Modelled from the spec: a key record as the Key Store owns it — the
caller-visible metadata and public key plus the opaque private-key handle,
absent for import-only records.  The owning agent identifier groups records
for listing and rotation. -/
structure StoredKey where
  agentId : String
  meta : KeyMeta
  publicKey : List Nat
  privHandle : Option Nat
deriving DecidableEq, Repr

/-- Modelled from the spec: the Key Store's record set in creation order,
with the counter from which fresh key identifiers are drawn. -/
structure SDKState where
  keys : List StoredKey
  nextId : Nat
deriving DecidableEq, Repr

/-- Modelled from the spec: the external cryptographic-primitive provider,
exactly the per-suite capabilities the spec's external-interface section
lists — generateKeyPair (keyed here by the freshness counter),
sign (privateHandle, message) and verify (publicKey, message, signature). -/
structure Primitives where
  generateKeyPair : SignatureSuite → Nat → List Nat × Nat
  sign : SignatureSuite → Nat → List Nat → List Nat
  verify : SignatureSuite → List Nat → List Nat → List Nat → Bool

/-- Modelled from the spec: the error taxonomy members the modelled
operations can surface. -/
inductive SDKError
  | keyNotFound
  | verifyOnlyKey
  | inactiveKey
  | corruptSuiteOutput
  | malformedSignature
deriving DecidableEq, Repr

/-- The caller-visible part of a stored key. -/
def toRecord (sk : StoredKey) : KeyRecord :=
  { meta := sk.meta, publicKey := sk.publicKey }

/-- Modelled from the spec: createKey requests key material from the
suite's primitive, assigns a fresh unique identifier, sets status active
and usage sign+verify, stores the record and returns it. -/
def createKey (P : Primitives) (st : SDKState) (agentId : String)
    (suite : SignatureSuite) : KeyRecord × SDKState :=
  let pair := P.generateKeyPair suite st.nextId
  let meta : KeyMeta :=
    { keyId := toString st.nextId, suiteId := suite,
      usage := ["sign", "verify"], status := KeyStatus.active }
  let sk : StoredKey :=
    { agentId := agentId, meta := meta, publicKey := pair.1,
      privHandle := some pair.2 }
  ({ meta := meta, publicKey := pair.1 },
   { keys := st.keys ++ [sk], nextId := st.nextId + 1 })

/-- Modelled from the spec: record lookup by key identifier. -/
def findKey (st : SDKState) (keyId : String) : Option StoredKey :=
  st.keys.find? (fun sk => sk.meta.keyId == keyId)

/-- Modelled from the spec: listKeysForAgent returns the agent's records in
creation order; with activeOnly it filters to status active. -/
def listKeysForAgent (st : SDKState) (agentId : String) (activeOnly : Bool) :
    List KeyRecord :=
  (st.keys.filter fun sk =>
    sk.agentId == agentId && (!activeOnly || sk.meta.status == KeyStatus.active)).map
    toRecord

/-- Modelled from the spec: sign looks the record up (KeyNotFound),
requires a private handle (VerifyOnlyKey) and an active status
(InactiveKey), delegates to the suite's primitive and checks the produced
signature against the suite's expected signature length
(CorruptSuiteOutput on mismatch).  sigLen is the Suite Registry's expected
signature length per suite. -/
def signWithKey (P : Primitives) (sigLen : SignatureSuite → Nat)
    (st : SDKState) (keyId : String) (message : List Nat) :
    Except SDKError (List Nat) :=
  match findKey st keyId with
  | none => Except.error SDKError.keyNotFound
  | some k =>
    match k.privHandle with
    | none => Except.error SDKError.verifyOnlyKey
    | some h =>
      match k.meta.status with
      | KeyStatus.inactive => Except.error SDKError.inactiveKey
      | KeyStatus.active =>
        let sig := P.sign k.meta.suiteId h message
        if sig.length = sigLen k.meta.suiteId then Except.ok sig
        else Except.error SDKError.corruptSuiteOutput

/-- Modelled from the spec: verify looks the record up (KeyNotFound,
status irrelevant), rejects a signature of the wrong length
(MalformedSignature) and otherwise returns the suite primitive's boolean
verdict. -/
def verifySignature (P : Primitives) (sigLen : SignatureSuite → Nat)
    (st : SDKState) (keyId : String) (message sig : List Nat) :
    Except SDKError Bool :=
  match findKey st keyId with
  | none => Except.error SDKError.keyNotFound
  | some k =>
    if sig.length = sigLen k.meta.suiteId then
      Except.ok (P.verify k.meta.suiteId k.publicKey message sig)
    else Except.error SDKError.malformedSignature

/-! ## App.tsx state and handlers -/

/-- The Stats record of src/types/sdk.ts, held by App.tsx. -/
structure Stats where
  keysCreated : Nat
  signaturesCreated : Nat
  verifications : Nat
deriving DecidableEq, Repr

/-- The 'ecdsa' | 'mldsa' tag handleKeyCreated receives. -/
inductive KeyType
  | ecdsa
  | mldsa
deriving DecidableEq, Repr

/-- The state App.tsx keeps: the two tracked key identifiers and the
statistics counters. -/
structure AppState where
  ecdsaKeyId : Option String
  mldsaKeyId : Option String
  stats : Stats
deriving DecidableEq, Repr

/-- The useState initial values of App.tsx. -/
def initialAppState : AppState :=
  { ecdsaKeyId := none, mldsaKeyId := none,
    stats := { keysCreated := 0, signaturesCreated := 0, verifications := 0 } }

/-- handleKeyCreated from App.tsx: records the new key identifier in the
slot for its type and increments keysCreated. -/
def handleKeyCreated (s : AppState) (keyId : String) (t : KeyType) : AppState :=
  let s1 := match t with
    | KeyType.ecdsa => { s with ecdsaKeyId := some keyId }
    | KeyType.mldsa => { s with mldsaKeyId := some keyId }
  { s1 with stats := { s1.stats with keysCreated := s1.stats.keysCreated + 1 } }

/-- handleStatsUpdate from App.tsx: increments signaturesCreated and
verifications together, by one each. -/
def handleStatsUpdate (s : AppState) : AppState :=
  { s with stats := { s.stats with
      signaturesCreated := s.stats.signaturesCreated + 1,
      verifications := s.stats.verifications + 1 } }

/-- handleKeysRotated from App.tsx: for each non-null new identifier,
stores it in its slot and increments keysCreated. -/
def handleKeysRotated (s : AppState) (newEcdsaKeyId newMldsaKeyId : Option String) :
    AppState :=
  let s1 := match newEcdsaKeyId with
    | some k =>
        { s with
          ecdsaKeyId := some k
          stats := { s.stats with keysCreated := s.stats.keysCreated + 1 } }
    | none => s
  match newMldsaKeyId with
  | some k =>
      { s1 with
        mldsaKeyId := some k
        stats := { s1.stats with keysCreated := s1.stats.keysCreated + 1 } }
  | none => s1

/-- One invocation of an App.tsx callback. -/
inductive AppEvent
  | keyCreated (keyId : String) (t : KeyType)
  | statsUpdate
  | keysRotated (newEcdsaKeyId newMldsaKeyId : Option String)

/-- Dispatch of one callback invocation. -/
def appStep (s : AppState) : AppEvent → AppState
  | AppEvent.keyCreated keyId t => handleKeyCreated s keyId t
  | AppEvent.statsUpdate => handleStatsUpdate s
  | AppEvent.keysRotated e m => handleKeysRotated s e m

/-- The App state reached from the initial state by a sequence of callback
invocations. -/
def appRun (evs : List AppEvent) : AppState :=
  evs.foldl appStep initialAppState

/-! ## KeyManagementSection.tsx handlers -/

/-- What handleRotateKeys produces: its newKeys list, the two identifiers
it passes to the onKeysRotated callback, and the SDK state after its
createKey calls. -/
structure RotateResult where
  newKeys : List KeyRecord
  newEcdsaKeyId : Option String
  newMldsaKeyId : Option String
  state : SDKState
deriving Repr

/-- handleRotateKeys from KeyManagementSection.tsx: when an ECDSA key is
tracked, creates a key with suite 'bsv-ecdsa-secp256k1'; when an ML-DSA key
is tracked, creates a key with suite 'ml-dsa-65'; collects the new records
in that order and reports the new identifiers.  It never inspects, mutates
or deactivates existing records. -/
def handleRotateKeys (P : Primitives) (ecdsaKeyId mldsaKeyId : Option String)
    (st : SDKState) : RotateResult :=
  let step1 : List KeyRecord × Option String × SDKState :=
    match ecdsaKeyId with
    | some _ =>
        let r := createKey P st "BrowserAgent" SignatureSuite.bsvEcdsaSecp256k1
        ([r.1], some r.1.meta.keyId, r.2)
    | none => ([], none, st)
  let step2 : List KeyRecord × Option String × SDKState :=
    match mldsaKeyId with
    | some _ =>
        let r := createKey P step1.2.2 "BrowserAgent" SignatureSuite.mlDsa65
        (step1.1 ++ [r.1], some r.1.meta.keyId, r.2)
    | none => (step1.1, none, step1.2.2)
  { newKeys := step2.1, newEcdsaKeyId := step1.2.1,
    newMldsaKeyId := step2.2.1, state := step2.2.2 }

/-- The profile handleGetProfile reports: the active-key count and the two
suite-presence flags. -/
structure CryptoProfile where
  totalActive : Nat
  hasEcdsa : Bool
  hasMldsa : Bool
deriving DecidableEq, Repr

/-- handleGetProfile from KeyManagementSection.tsx: reads
listKeysForAgent('BrowserAgent', true), filters the listing to status
'active' and aggregates.  Its only SDK interaction is that read; it invokes
neither a mutating SDK operation nor the onStatsUpdate callback, so the key
store and the statistics counters pass through untouched. -/
def handleGetProfile (st : SDKState) (stats : Stats) :
    CryptoProfile × SDKState × Stats :=
  let keys := listKeysForAgent st "BrowserAgent" true
  let activeKeys := keys.filter fun k => k.meta.status == KeyStatus.active
  ({ totalActive := activeKeys.length,
     hasEcdsa := activeKeys.any fun k =>
       k.meta.suiteId == SignatureSuite.bsvEcdsaSecp256k1,
     hasMldsa := activeKeys.any fun k => isMlDsaSuite k.meta.suiteId },
   st, stats)

/-! ## CustomMessageSection.tsx -/

/-- The 'ecdsa' | 'mldsa' | 'both' selection of CustomMessageSection.tsx. -/
inductive Algo
  | ecdsa
  | mldsa
  | both
deriving DecidableEq, Repr

/-- selectedAlgorithm === 'ecdsa' || selectedAlgorithm === 'both'. -/
def wantsEcdsa : Algo → Bool
  | Algo.ecdsa => true
  | Algo.both => true
  | Algo.mldsa => false

/-- selectedAlgorithm === 'mldsa' || selectedAlgorithm === 'both'. -/
def wantsMldsa : Algo → Bool
  | Algo.mldsa => true
  | Algo.both => true
  | Algo.ecdsa => false

/-- The signatures state of CustomMessageSection.tsx: an optional ECDSA and
an optional ML-DSA signature (timing fields are presentation only and are
omitted). -/
structure Signatures where
  ecdsa : Option (List Nat)
  mldsa : Option (List Nat)
deriving DecidableEq, Repr

/-- One algorithm branch of handleSignMessage: when the algorithm is
selected and its key identifier is non-null, awaits sdk.signWithKey
(a thrown error is the Except error case) and then sdk.verifySignature
(whose boolean verdict is only logged), and yields the signature;
otherwise yields nothing. -/
def signBranch (signO : String → Except String (List Nat))
    (verifyO : String → List Nat → Except String Bool)
    (want : Bool) (keyId : Option String) : Except String (Option (List Nat)) :=
  match want, keyId with
  | true, some k =>
      match signO k with
      | Except.error e => Except.error e
      | Except.ok sig =>
          match verifyO k sig with
          | Except.error e => Except.error e
          | Except.ok _ => Except.ok (some sig)
  | _, _ => Except.ok none

/-- handleSignMessage from CustomMessageSection.tsx, from the point where
signing begins (the early return on an empty message touches nothing the
claims concern): the signatures state is first reset to empty, the try
block runs the ECDSA branch and then the ML-DSA branch, and only when both
complete does setSignatures(newSignatures) expose the result and
onStatsUpdate() fire — the catch block leaves the reset (empty) signatures
state and does not invoke the stats callback.  The returned pair is the
final signatures state and whether onStatsUpdate was invoked. -/
def handleSignMessage (signO : String → Except String (List Nat))
    (verifyO : String → List Nat → Except String Bool)
    (algo : Algo) (ecdsaKeyId mldsaKeyId : Option String) : Signatures × Bool :=
  let body : Except String Signatures :=
    match signBranch signO verifyO (wantsEcdsa algo) ecdsaKeyId with
    | Except.error e => Except.error e
    | Except.ok sigE =>
        match signBranch signO verifyO (wantsMldsa algo) mldsaKeyId with
        | Except.error e => Except.error e
        | Except.ok sigM => Except.ok { ecdsa := sigE, mldsa := sigM }
  match body with
  | Except.ok sigs => (sigs, true)
  | Except.error _ => ({ ecdsa := none, mldsa := none }, false)

/-! ## SigningSection.tsx -/

/-- One awaited sdk.signWithKey call of handleSignWithBoth, with its
position in the handler (1 = the ECDSA call, 2 = the ML-DSA call) and
whether it succeeded. -/
inductive SignEvent
  | signCall (step : Nat) (keyId : String) (ok : Bool)
deriving DecidableEq, Repr

/-- handleSignWithBoth from SigningSection.tsx as the trace of its awaited
sign calls: the ECDSA call is awaited to completion first, and the ML-DSA
call is issued only in the branch where the first await has returned
successfully — a thrown first call jumps to the catch block and the second
call never happens.  Returns the trace and whether onStatsUpdate fired. -/
def handleSignWithBoth (signO : String → Except String (List Nat))
    (ecdsaKeyId mldsaKeyId : String) : List SignEvent × Bool :=
  match signO ecdsaKeyId with
  | Except.error _ => ([SignEvent.signCall 1 ecdsaKeyId false], false)
  | Except.ok _ =>
      match signO mldsaKeyId with
      | Except.error _ =>
          ([SignEvent.signCall 1 ecdsaKeyId true,
            SignEvent.signCall 2 mldsaKeyId false], false)
      | Except.ok _ =>
          ([SignEvent.signCall 1 ecdsaKeyId true,
            SignEvent.signCall 2 mldsaKeyId true], true)

/-! ## loadSDKFromCDN from src/utils/sdk-loader.ts -/

/-- The browser facts loadSDKFromCDN observes and changes: whether
window.LumenKeys is set and how many script elements have been appended to
document.head. -/
structure BrowserState where
  lumenKeys : Bool
  scripts : Nat
deriving DecidableEq, Repr

/-- What the network does with an injected script tag: the script fails to
load (onerror), or it loads and either defines the global or not. -/
inductive NetworkOutcome
  | failed
  | loaded (setsGlobal : Bool)
deriving DecidableEq, Repr

/-- How the promise returned by loadSDKFromCDN settles. -/
inductive LoadResult
  | resolved
  | rejected (msg : String)
deriving DecidableEq, Repr

/-- loadSDKFromCDN from src/utils/sdk-loader.ts: if window.LumenKeys is
already set, resolve() and return before any script element is created;
otherwise append a script tag and settle according to its onload/onerror
outcome. -/
def loadSDKFromCDN (net : NetworkOutcome) (w : BrowserState) :
    LoadResult × BrowserState :=
  if w.lumenKeys then (LoadResult.resolved, w)
  else
    let w1 : BrowserState := { w with scripts := w.scripts + 1 }
    match net with
    | NetworkOutcome.failed =>
        (LoadResult.rejected "Failed to load SDK from CDN", w1)
    | NetworkOutcome.loaded setsGlobal =>
        let w2 : BrowserState := { w1 with lumenKeys := setsGlobal }
        if w2.lumenKeys then (LoadResult.resolved, w2)
        else (LoadResult.rejected "LumenKeys SDK failed to load", w2)

/-! ## Concrete instances used to exercise the theorems -/

/-- A toy primitive provider: the public key is the seed byte, the private
handle is the seed, a signature is the handle byte, and verification
compares the signature against the public key's first byte. -/
def P0 : Primitives :=
  { generateKeyPair := fun _ n => ([n % 256], n)
    sign := fun _ h _ => [h % 256]
    verify := fun _ pub _ sig => sig == [pub.headD 0 % 256] }

/-- Expected signature length of every suite under P0. -/
def sigLen0 : SignatureSuite → Nat := fun _ => 1

/-- A store holding one freshly created active ECDSA key. -/
def st0 : SDKState :=
  (createKey P0 { keys := [], nextId := 0 } "BrowserAgent"
    SignatureSuite.bsvEcdsaSecp256k1).2

/-- The one stored key of st0. -/
def sk0 : StoredKey :=
  { agentId := "BrowserAgent"
    meta := { keyId := "0", suiteId := SignatureSuite.bsvEcdsaSecp256k1,
              usage := ["sign", "verify"], status := KeyStatus.active }
    publicKey := [0]
    privHandle := some 0 }

/-- A store holding one freshly created active ML-DSA-44 key. -/
def st1 : SDKState :=
  (createKey P0 { keys := [], nextId := 0 } "BrowserAgent"
    SignatureSuite.mlDsa44).2

/-- A sign oracle for which the key "e" signs and every other key throws
(an inactive key, say). -/
def signO0 : String → Except String (List Nat) :=
  fun k => if k == "e" then Except.ok [1] else Except.error "InactiveKey"

/-- A verify oracle that always returns a verdict. -/
def verifyO0 : String → List Nat → Except String Bool :=
  fun _ _ => Except.ok true

/-- A sign oracle for which every sign call throws. -/
def signO1 : String → Except String (List Nat) :=
  fun _ => Except.error "KeyNotFound"

/-! ## Helper lemmas -/

/-- Taking one element past an in-bounds set picks up the stored value. -/
lemma set_take_succ (l : List Nat) (j v : Nat) (h : j < l.length) :
    (l.set j v).take (j + 1) = l.take j ++ [v] := by
  induction l generalizing j with
  | nil => simp at h
  | cons a tl ih =>
    cases j with
    | zero => simp
    | succ jj =>
      simp only [List.set_cons_succ, List.take_succ_cons, List.cons_append]
      rw [ih jj (by simpa using h)]

/-- The decoder's write loop, run over the suffix cs with write index j on
an array of exactly j + cs.length / 2 slots, fills the slots from j on with
the pairwise-read digit values; the write for a lone trailing digit falls
out of bounds and is discarded. -/
lemma writeLoopAux_eq (cs : List Char) (j : Nat) (bytes : List Nat)
    (h : bytes.length = j + cs.length / 2) :
    writeLoopAux bytes j cs = bytes.take j ++ hexPairs cs := by
  match cs with
  | [] =>
    simp only [List.length_nil] at h
    simp [writeLoopAux, hexPairs, h, List.take_length]
  | [c] =>
    simp only [List.length_singleton] at h
    have hj : bytes.length ≤ j := by omega
    simp only [writeLoopAux]
    rw [List.set_eq_of_length_le hj, List.take_of_length_le hj]
    simp [hexPairs]
  | c1 :: c2 :: rest =>
    have hlen : (c1 :: c2 :: rest : List Char).length / 2 = rest.length / 2 + 1 := by
      simp [List.length_cons]; omega
    have hj : j < bytes.length := by rw [h, hlen]; omega
    have h2 : (bytes.set j (parseIntHex [c1, c2])).length = (j + 1) + rest.length / 2 := by
      rw [List.length_set, h, hlen]; omega
    have ih := writeLoopAux_eq rest (j + 1) (bytes.set j (parseIntHex [c1, c2])) h2
    simp only [writeLoopAux]
    rw [ih, set_take_succ bytes j _ hj]
    have hv : parseIntHex [c1, c2] = 16 * hexVal c1 + hexVal c2 := by
      simp [parseIntHex]; ring
    rw [hv]
    simp [hexPairs]
termination_by cs.length

/-- Pairwise reading agrees with the indexed description: element i is read
from digits 2i and 2i+1, and a lone trailing digit is dropped. -/
lemma hexPairs_eq_spec (cs : List Char) : hexPairs cs = decodedBytesSpec cs := by
  match cs with
  | [] => simp [hexPairs, decodedBytesSpec]
  | [c] => simp [hexPairs, decodedBytesSpec]
  | c1 :: c2 :: rest =>
    have ih := hexPairs_eq_spec rest
    have hlen : (c1 :: c2 :: rest : List Char).length / 2 = rest.length / 2 + 1 := by
      simp [List.length_cons]; omega
    simp only [hexPairs, decodedBytesSpec, hlen, List.range_succ_eq_map, List.map_cons,
      List.map_map]
    have htail : hexPairs rest =
        List.map
          ((fun i =>
              16 * hexVal ((c1 :: c2 :: rest).getD (2 * i) '0') +
                hexVal ((c1 :: c2 :: rest).getD (2 * i + 1) '0')) ∘ Nat.succ)
          (List.range (rest.length / 2)) := by
      rw [ih]
      simp only [decodedBytesSpec]
      apply List.map_congr_left
      intro i _
      simp only [Function.comp_apply, Nat.succ_eq_add_one]
      have h1 : 2 * (i + 1) = 2 * i + 1 + 1 := by ring
      rw [h1]
      simp [List.getD]
    rw [htail]
    norm_num [List.getD]
termination_by cs.length

/-- Each App.tsx callback keeps the two counters in step. -/
lemma appStep_stats_eq (s : AppState) (ev : AppEvent)
    (h : s.stats.signaturesCreated = s.stats.verifications) :
    (appStep s ev).stats.signaturesCreated = (appStep s ev).stats.verifications := by
  cases ev with
  | keyCreated k t => cases t <;> simp [appStep, handleKeyCreated, h]
  | statsUpdate => simp [appStep, handleStatsUpdate, h]
  | keysRotated e m => cases e <;> cases m <;> simp [appStep, handleKeysRotated, h]

/-- The counters stay in step along any callback sequence. -/
lemma appRun_stats_aux (evs : List AppEvent) :
    ∀ s : AppState, s.stats.signaturesCreated = s.stats.verifications →
      (evs.foldl appStep s).stats.signaturesCreated =
        (evs.foldl appStep s).stats.verifications := by
  induction evs with
  | nil => intro s h; simpa using h
  | cons ev evs ih =>
    intro s h
    simpa using ih (appStep s ev) (appStep_stats_eq s ev h)

/-! ## The claims -/

/-- C1: the export path encodes a public key through arrayToHex's default
length argument 32, so a 33-byte public key (the compressed ECDSA size)
decodes back to its first 32 bytes, not to itself — the export/import
round-trip invariant decode(encode(x)) == x fails for every key longer
than 32 bytes. -/
theorem export_roundtrip_truncates :
    hexToUint8Array (arrayToHexDefault (List.replicate 33 0)) =
      Except.ok (List.replicate 32 0) ∧
    List.replicate 32 (0 : Nat) ≠ List.replicate 33 0 :=
  ⟨rfl, by decide⟩

/-- C2 counterexample: a state whose agent has exactly one active key, of
suite ml-dsa-44, is rotated into exactly one new KeyRecord of suite
ml-dsa-65 — not of the suite it replaces. -/
theorem rotate_suite_mismatch :
    (listKeysForAgent st1 "BrowserAgent" true).map (fun r => r.meta.suiteId) =
      [SignatureSuite.mlDsa44] ∧
    (handleRotateKeys P0 none (some "0") st1).newKeys.map
      (fun r => r.meta.suiteId) = [SignatureSuite.mlDsa65] ∧
    SignatureSuite.mlDsa65 ≠ SignatureSuite.mlDsa44 :=
  ⟨rfl, rfl, by decide⟩

/-- C2 (amended): the rotation workflow creates one replacement per tracked
key, with hardcoded suites — bsv-ecdsa-secp256k1 for the tracked ECDSA key
and ml-dsa-65 for the tracked ML-DSA key, whatever the replaced key's
variant was — in that order. -/
theorem handleRotateKeys_suites (P : Primitives) (st : SDKState) (e m : String) :
    (handleRotateKeys P (some e) (some m) st).newKeys.map
      (fun r => r.meta.suiteId) =
        [SignatureSuite.bsvEcdsaSecp256k1, SignatureSuite.mlDsa65] ∧
    (handleRotateKeys P none (some m) st).newKeys.map
      (fun r => r.meta.suiteId) = [SignatureSuite.mlDsa65] ∧
    (handleRotateKeys P (some e) none st).newKeys.map
      (fun r => r.meta.suiteId) = [SignatureSuite.bsvEcdsaSecp256k1] ∧
    (handleRotateKeys P none none st).newKeys = [] := by
  refine ⟨?_, ?_, ?_, ?_⟩ <;> simp [handleRotateKeys, createKey]

/-- C3: hybrid signing in handleSignMessage is all-or-nothing — when the
sign call for either listed key throws (the first key outright, or the
second key after the first signed and its verdict was read), the handler
ends with the signatures state still empty and without invoking the stats
callback, so no earlier signature is exposed as a success. -/
theorem handleSignMessage_allOrNothing
    (signO : String → Except String (List Nat))
    (verifyO : String → List Nat → Except String Bool)
    (k1 k2 err : String)
    (h : signO k1 = Except.error err ∨
      ∃ s1 v1, signO k1 = Except.ok s1 ∧ verifyO k1 s1 = Except.ok v1 ∧
        signO k2 = Except.error err) :
    handleSignMessage signO verifyO Algo.both (some k1) (some k2) =
      ({ ecdsa := none, mldsa := none }, false) := by
  rcases h with h | ⟨s1, v1, h1, h2, h3⟩
  · simp [handleSignMessage, signBranch, wantsEcdsa, h]
  · simp [handleSignMessage, signBranch, wantsEcdsa, wantsMldsa, h1, h2, h3]

/-- C3 witness: with a concrete oracle whose second key throws, the handler
returns the empty signatures state and does not fire the stats callback. -/
theorem handleSignMessage_allOrNothing_witness :
    (signO0 "e" = Except.error "InactiveKey" ∨
      ∃ s1 v1, signO0 "e" = Except.ok s1 ∧ verifyO0 "e" s1 = Except.ok v1 ∧
        signO0 "m" = Except.error "InactiveKey") ∧
    handleSignMessage signO0 verifyO0 Algo.both (some "e") (some "m") =
      ({ ecdsa := none, mldsa := none }, false) :=
  ⟨Or.inr ⟨[1], true, rfl, rfl, rfl⟩,
   handleSignMessage_allOrNothing signO0 verifyO0 "e" "m" "InactiveKey"
     (Or.inr ⟨[1], true, rfl, rfl, rfl⟩)⟩

/-- C4: for an active key that owns a private handle, a signature produced
by signWithKey verifies successfully through verifySignature with the same
key and message, given that the suite's primitive round-trips (the spec's
assumption on the external provider) and the signature has the suite's
expected length. -/
theorem sign_verify_roundtrip (P : Primitives) (sigLen : SignatureSuite → Nat)
    (st : SDKState) (keyId : String) (message : List Nat) (k : StoredKey) (h : Nat)
    (hk : findKey st keyId = some k)
    (hpriv : k.privHandle = some h)
    (hact : k.meta.status = KeyStatus.active)
    (hlen : (P.sign k.meta.suiteId h message).length = sigLen k.meta.suiteId)
    (hverify : P.verify k.meta.suiteId k.publicKey message
      (P.sign k.meta.suiteId h message) = true) :
    signWithKey P sigLen st keyId message =
      Except.ok (P.sign k.meta.suiteId h message) ∧
    verifySignature P sigLen st keyId message
      (P.sign k.meta.suiteId h message) = Except.ok true := by
  constructor
  · simp [signWithKey, hk, hpriv, hact, hlen]
  · simp [verifySignature, hk, hlen, hverify]

/-- C4 witness: the round-trip at a concrete store, key and message. -/
theorem sign_verify_roundtrip_witness :
    (findKey st0 "0" = some sk0 ∧ sk0.privHandle = some 0 ∧
      sk0.meta.status = KeyStatus.active ∧
      (P0.sign sk0.meta.suiteId 0 [7]).length = sigLen0 sk0.meta.suiteId ∧
      P0.verify sk0.meta.suiteId sk0.publicKey [7]
        (P0.sign sk0.meta.suiteId 0 [7]) = true) ∧
    signWithKey P0 sigLen0 st0 "0" [7] =
      Except.ok (P0.sign sk0.meta.suiteId 0 [7]) ∧
    verifySignature P0 sigLen0 st0 "0" [7]
      (P0.sign sk0.meta.suiteId 0 [7]) = Except.ok true :=
  ⟨⟨rfl, rfl, rfl, rfl, rfl⟩,
   sign_verify_roundtrip P0 sigLen0 st0 "0" [7] sk0 0 rfl rfl rfl rfl rfl⟩

/-- C5: handleGetProfile is a pure read aggregation — it returns the key
store and the statistics counters unchanged, and the active-key count it
reports equals the number of records with status active in the
listKeysForAgent('BrowserAgent', activeOnly=true) listing. -/
theorem handleGetProfile_pure (st : SDKState) (stats : Stats) :
    (handleGetProfile st stats).2.1 = st ∧
    (handleGetProfile st stats).2.2 = stats ∧
    (handleGetProfile st stats).1.totalActive =
      (listKeysForAgent st "BrowserAgent" true).countP
        (fun k => k.meta.status == KeyStatus.active) := by
  refine ⟨rfl, rfl, ?_⟩
  simp [handleGetProfile, List.countP_eq_length_filter]

/-- C6: rotation only appends newly created records — after
handleRotateKeys, the store's record list is the old list followed by some
tail, so every KeyRecord that existed before the call is unchanged (status
and all fields) and no deactivation is issued. -/
theorem handleRotateKeys_preserves (P : Primitives) (e m : Option String)
    (st : SDKState) :
    ∃ tail, (handleRotateKeys P e m st).state.keys = st.keys ++ tail := by
  cases e <;> cases m <;>
    exact ⟨_, by simp [handleRotateKeys, createKey]; try rfl⟩

/-- C7: handleSignWithBoth awaits the first key's sign call to completion
before the second begins — when the first call throws, the trace holds
exactly the failed first call, and in particular no step after 1 produced
any signature. -/
theorem handleSignWithBoth_sequential
    (signO : String → Except String (List Nat)) (ecdsaKeyId mldsaKeyId e : String)
    (h : signO ecdsaKeyId = Except.error e) :
    (handleSignWithBoth signO ecdsaKeyId mldsaKeyId).1 =
      [SignEvent.signCall 1 ecdsaKeyId false] ∧
    ∀ step kid ok, SignEvent.signCall step kid ok ∈
      (handleSignWithBoth signO ecdsaKeyId mldsaKeyId).1 → step = 1 := by
  constructor
  · simp [handleSignWithBoth, h]
  · intro step kid ok hmem
    simp [handleSignWithBoth, h] at hmem
    exact hmem.1

/-- C7 witness: with an oracle that always throws, the trace is the single
failed first call. -/
theorem handleSignWithBoth_sequential_witness :
    signO1 "e" = Except.error "KeyNotFound" ∧
    ((handleSignWithBoth signO1 "e" "m").1 = [SignEvent.signCall 1 "e" false] ∧
     ∀ step kid ok, SignEvent.signCall step kid ok ∈
       (handleSignWithBoth signO1 "e" "m").1 → step = 1) :=
  ⟨rfl, handleSignWithBoth_sequential signO1 "e" "m" "KeyNotFound" rfl⟩

/-- C8 counterexample: on the odd-digit input "abc" the decoder does not
throw — per ES2017+ ToIndex the fractional typed-array length 1.5 is
truncated — and it returns the single byte 0xab, the trailing digit's
out-of-bounds write being discarded. -/
theorem hexToUint8Array_odd_input_ok :
    hexToUint8Array "abc" = Except.ok [171] := rfl

/-- C8 (amended): hexToUint8Array strips every character that is not a
hexadecimal digit and returns, for any input (odd or even digit count,
within the ToIndex range), exactly count / 2 bytes with byte i parsed from
digits 2i and 2i+1 of the cleaned input; a lone trailing digit is
discarded, so the decoder is total on arbitrary strings rather than
throwing on odd counts. -/
theorem hexToUint8Array_decodes (s : String)
    (h : (s.data.filter isHexDigit).length / 2 < 2 ^ 53) :
    hexToUint8Array s = Except.ok (decodedBytesSpec (s.data.filter isHexDigit)) := by
  unfold hexToUint8Array toIndexHalf
  simp only [h, if_pos]
  rw [writeLoopAux_eq _ 0 _ (by simp)]
  simp [hexPairs_eq_spec]

/-- C8 witness: the decoding law at the concrete odd-length input "abc". -/
theorem hexToUint8Array_decodes_witness :
    ("abc".data.filter isHexDigit).length / 2 < 2 ^ 53 ∧
    hexToUint8Array "abc" =
      Except.ok (decodedBytesSpec ("abc".data.filter isHexDigit)) :=
  ⟨by decide, hexToUint8Array_decodes "abc" (by decide)⟩

/-- C9: in every App state reachable from the initial state by callback
invocations, signaturesCreated equals verifications — the two counters
start at 0 and only handleStatsUpdate changes them, incrementing both
together. -/
theorem stats_signatures_eq_verifications (evs : List AppEvent) :
    (appRun evs).stats.signaturesCreated = (appRun evs).stats.verifications :=
  appRun_stats_aux evs initialAppState rfl

/-- C10: once window.LumenKeys is present, loadSDKFromCDN resolves
immediately with the browser state untouched — no script element is
appended — and a second call does the same, whatever the network would
do. -/
theorem loadSDKFromCDN_idempotent (net net' : NetworkOutcome) (w : BrowserState)
    (h : w.lumenKeys = true) :
    loadSDKFromCDN net w = (LoadResult.resolved, w) ∧
    (loadSDKFromCDN net w).2.scripts = w.scripts ∧
    loadSDKFromCDN net' (loadSDKFromCDN net w).2 = (LoadResult.resolved, w) := by
  simp [loadSDKFromCDN, h]

/-- C10 witness: the loader at a concrete browser state with the global
already set. -/
theorem loadSDKFromCDN_idempotent_witness :
    ({ lumenKeys := true, scripts := 0 } : BrowserState).lumenKeys = true ∧
    (loadSDKFromCDN NetworkOutcome.failed { lumenKeys := true, scripts := 0 } =
      (LoadResult.resolved, { lumenKeys := true, scripts := 0 }) ∧
    (loadSDKFromCDN NetworkOutcome.failed
      { lumenKeys := true, scripts := 0 }).2.scripts = 0 ∧
    loadSDKFromCDN NetworkOutcome.failed
      (loadSDKFromCDN NetworkOutcome.failed
        { lumenKeys := true, scripts := 0 }).2 =
      (LoadResult.resolved, { lumenKeys := true, scripts := 0 })) :=
  ⟨rfl, loadSDKFromCDN_idempotent NetworkOutcome.failed NetworkOutcome.failed
    { lumenKeys := true, scripts := 0 } rfl⟩

end SmartLedgerPQ
